import Mathlib

/-!
Verification of the WebGL linear-algebra utility library
(`src/2_Project_2/shape-editor.js`, utility portion).

The JavaScript library computes over IEEE doubles and over arrays that may
carry a boolean `matrix` property.  The embedding models:

* scalars generically over the arithmetic operations the source uses, so the
  same definition can be read at `ℚ` (ideal exact arithmetic, used for the
  algebraic claims), at `ℝ` (used for the trigonometric claim, where
  `Math.cos`, `Math.sin` and `Math.PI` — JS builtins, not repository code —
  are passed as explicit parameters), and at `JsNum` (exact rationals
  extended with `Infinity`/`-Infinity`/`NaN` following the IEEE special-value
  rules, used for the claims about non-finite propagation);
* a JS array value as `LinVal`: either a plain array of numbers
  (`LinVal.vec`, the `matrix` property absent/false) or an array of row
  arrays carrying the `matrix` tag (`LinVal.mat`);
* the two failure channels of the library as `JsOutcome`:
  `errored msg` for `console.error(...); return;` (diagnostic reported,
  `undefined` returned) and `thrown msg` for a JS `throw`.

Out-of-range JS indexing yields `undefined`, and arithmetic on `undefined`
yields `NaN`; the embedding indexes with the domain's `default` element
(`NaN` at `JsNum`).  No claim below exercises an out-of-range index.
-/

namespace WebGLUtil

/-- Model of a JS number: an exact rational (ideal finite double), one of the
two infinities, or `NaN`.  Finite-finite arithmetic is exact; operations
involving the special values follow the IEEE rules. -/
inductive JsNum : Type where
  | num : ℚ → JsNum
  | inf : Bool → JsNum
  | nan : JsNum
deriving DecidableEq, Repr

namespace JsNum

/-- IEEE addition on `JsNum`: `NaN` absorbs, opposite infinities give `NaN`. -/
def jadd : JsNum → JsNum → JsNum
  | nan, _ => nan
  | _, nan => nan
  | inf p, inf q => if p = q then inf p else nan
  | inf p, num _ => inf p
  | num _, inf q => inf q
  | num a, num b => num (a + b)

/-- IEEE negation on `JsNum`. -/
def jneg : JsNum → JsNum
  | nan => nan
  | inf p => inf (!p)
  | num a => num (-a)

/-- IEEE subtraction on `JsNum`, as addition of the negation. -/
def jsub (x y : JsNum) : JsNum := jadd x (jneg y)

/-- IEEE multiplication on `JsNum`: `NaN` absorbs, `0 * Infinity = NaN`,
otherwise infinities keep the product of the signs. -/
def jmul : JsNum → JsNum → JsNum
  | nan, _ => nan
  | _, nan => nan
  | inf p, inf q => inf (p = q)
  | inf p, num b => if b = 0 then nan else inf (p = decide (0 < b))
  | num a, inf q => if a = 0 then nan else inf (q = decide (0 < a))
  | num a, num b => num (a * b)

/-- IEEE division on `JsNum`: division of a non-zero finite number by zero
gives a signed infinity, `0 / 0` gives `NaN`, finite/finite is exact. -/
def jdiv : JsNum → JsNum → JsNum
  | nan, _ => nan
  | _, nan => nan
  | inf _, inf _ => nan
  | inf p, num b => inf (p = decide (0 ≤ b))
  | num _, inf _ => num 0
  | num a, num b =>
      if b = 0 then (if a = 0 then nan else inf (decide (0 < a)))
      else num (a / b)

/-- Model of the JS global `isFinite`: true exactly on finite numbers. -/
def jfinite : JsNum → Bool
  | num _ => true
  | _ => false

/-- Model of `Math.sqrt`: `NaN` on `NaN` and negative inputs, `Infinity` on
`Infinity`, and `Rat.sqrt` on non-negative finite inputs.  `Rat.sqrt` is
exact on perfect squares; the claims below evaluate it only at `0`. -/
def jsqrt : JsNum → JsNum
  | nan => nan
  | inf p => if p then inf true else nan
  | num a => if a < 0 then nan else num (Rat.sqrt a)

instance : Add JsNum := ⟨jadd⟩
instance : Neg JsNum := ⟨jneg⟩
instance : Sub JsNum := ⟨jsub⟩
instance : Mul JsNum := ⟨jmul⟩
instance : Div JsNum := ⟨jdiv⟩

/-- Arithmetic on an out-of-range JS index (`undefined`) yields `NaN`; the
default element of `JsNum` is therefore `NaN`. -/
instance : Inhabited JsNum := ⟨nan⟩

end JsNum

/-- The square-root and finiteness primitives the library takes from the JS
environment (`Math.sqrt`, `isFinite`), per scalar domain. -/
class JsMathOps (α : Type) where
  sqrtOp : α → α
  isFiniteOp : α → Bool

/-- At the exact domain `ℚ` every value is finite and `Math.sqrt` is modelled
by `Rat.sqrt` (exact on perfect squares; the claims use it only where the
value is irrelevant or where the argument is a perfect square). -/
instance : JsMathOps ℚ := ⟨Rat.sqrt, fun _ => true⟩

instance : JsMathOps JsNum := ⟨JsNum.jsqrt, JsNum.jfinite⟩

/-- A JS array value as the library uses them: a plain array of numbers, or
an array of row arrays carrying the boolean `matrix` property. -/
inductive LinVal (α : Type) : Type where
  | vec : List α → LinVal α
  | mat : List (List α) → LinVal α
deriving DecidableEq, Repr

/-- Result of a library call: normal return, `console.error` followed by
`return;` (the caller receives `undefined`), or a thrown JS exception. -/
inductive JsOutcome (β : Type) : Type where
  | ok : β → JsOutcome β
  | errored : String → JsOutcome β
  | thrown : String → JsOutcome β
deriving DecidableEq, Repr

/-- Rows of a matrix value. -/
abbrev Mat (α : Type) : Type := List (List α)

instance : Zero JsNum := ⟨.num 0⟩
instance : One JsNum := ⟨.num 1⟩
instance : OfNat JsNum 2 := ⟨.num 2⟩
instance : OfNat JsNum 180 := ⟨.num 180⟩

section Embedding

variable {α : Type} [Zero α] [One α] [Add α] [Mul α] [Sub α] [Neg α] [Div α]
  [Inhabited α] [DecidableEq α] [JsMathOps α] [OfNat α 2] [OfNat α 180]

/-- JS read `m[i][j]` (out of range gives the domain's `undefined` model). -/
def idx (m : Mat α) (i j : Nat) : α := (m.getD i []).getD j default

/-- JS write `m[i][j] = x` on the rows of a matrix value. -/
def setE (m : Mat α) (i j : Nat) (x : α) : Mat α :=
  m.set i ((m.getD i []).set j x)

/-- Source `vec2`: the variadic arguments, flattened one level by
`objectToArray`, are a plain list of numbers; missing components default to
`0.0` (switch fall-through), excess components are dropped. -/
def vec2 : List α → List α
  | [] => [0, 0]
  | [a] => [a, 0]
  | a :: b :: _ => [a, b]

/-- Source `vec3`: as `vec2`, with three components. -/
def vec3 : List α → List α
  | [] => [0, 0, 0]
  | [a] => [a, 0, 0]
  | [a, b] => [a, b, 0]
  | a :: b :: c :: _ => [a, b, c]

/-- Source `vec4`: missing components default to `0.0` except the fourth,
which defaults to `1.0`. -/
def vec4 : List α → List α
  | [] => [0, 0, 0, 1]
  | [a] => [a, 0, 0, 1]
  | [a, b] => [a, b, 0, 1]
  | [a, b, c] => [a, b, c, 1]
  | a :: b :: c :: d :: _ => [a, b, c, d]

/-- Source `mat2`: with no arguments the identity (the `case 0` fall-through
sets `v[0] = 1`), with one scalar that scalar times the identity, otherwise
rows built by `vec2` from successive argument chunks; the result carries the
`matrix` tag. -/
def mat2 : List α → LinVal α
  | [] => .mat [vec2 [(1 : α), 0], vec2 [0, 1]]
  | [x] => .mat [vec2 [x, 0], vec2 [0, x]]
  | v => .mat [vec2 v, vec2 (v.drop 2)]

/-- Source `mat3`: as `mat2` in dimension 3. -/
def mat3 : List α → LinVal α
  | [] => .mat [vec3 [(1 : α), 0, 0], vec3 [0, 1, 0], vec3 [0, 0, 1]]
  | [x] => .mat [vec3 [x, 0, 0], vec3 [0, x, 0], vec3 [0, 0, x]]
  | v => .mat [vec3 v, vec3 (v.drop 3), vec3 (v.drop 6)]

/-- Source `mat4`: as `mat2` in dimension 4. -/
def mat4 : List α → LinVal α
  | [] => .mat [vec4 [(1 : α), 0, 0, 0], vec4 [0, 1, 0, 0],
                vec4 [0, 0, 1, 0], vec4 [0, 0, 0, 1]]
  | [x] => .mat [vec4 [x, 0, 0, 0], vec4 [0, x, 0, 0],
                 vec4 [0, 0, x, 0], vec4 [0, 0, 0, x]]
  | v => .mat [vec4 v, vec4 (v.drop 4), vec4 (v.drop 8), vec4 (v.drop 12)]

/-- Rows of a tagged matrix value (used where the source indexes into the
value returned by a matrix constructor). -/
def rowsOf : LinVal α → Mat α
  | .mat m => m
  | .vec _ => []

/-- Source `linearEquivalence`: deep exact comparison; any matrix/non-matrix
pairing is unequal.  JS strict equality on numbers is modelled by `=` (the
`NaN !== NaN` special case is not exercised by any claim). -/
def linearEquivalence : LinVal α → LinVal α → Bool
  | .mat u, .mat v =>
      u.length = v.length &&
      (List.range u.length).all (fun i =>
        (u.getD i []).length = (v.getD i []).length &&
        (List.range (u.getD i []).length).all (fun j => idx u i j = idx v i j))
  | .vec u, .vec v =>
      u.length = v.length &&
      (List.range u.length).all (fun i => u.getD i default = v.getD i default)
  | _, _ => false

/-- Source `linearAddition`: componentwise addition with exact shape checks;
on any mismatch a diagnostic is reported and `undefined` returned. -/
def linearAddition : LinVal α → LinVal α → JsOutcome (LinVal α)
  | .mat mu, .mat mv =>
      if mu.length ≠ mv.length then
        .errored "WebGL Utilities: linearAddition(): Cannot add matrices of different dimensions."
      else if (List.range mu.length).any
          (fun i => (mu.getD i []).length ≠ (mv.getD i []).length) then
        .errored "WebGL Utilities: linearAddition(): Cannot add matrices of different dimensions."
      else
        .ok (.mat ((List.range mu.length).map fun i =>
          (List.range (mu.getD i []).length).map fun j => idx mu i j + idx mv i j))
  | .mat _, .vec _ =>
      .errored "WebGL Utilities: linearAddition(): Cannot add matrix and non-matrix variables."
  | .vec _, .mat _ =>
      .errored "WebGL Utilities: linearAddition(): Cannot add matrix and non-matrix variables."
  | .vec u, .vec v =>
      if u.length ≠ v.length then
        .errored "WebGL Utilities: linearAddition(): Cannot add matrices of different dimensions."
      else
        .ok (.vec ((List.range u.length).map fun i =>
          u.getD i default + v.getD i default))

/-- Source `linearSubtract`: componentwise subtraction, same shape policy as
`linearAddition`. -/
def linearSubtract : LinVal α → LinVal α → JsOutcome (LinVal α)
  | .mat mu, .mat mv =>
      if mu.length ≠ mv.length then
        .errored "WebGL Utilities: linearSubtract(): Cannot subtract matrices of different lengths."
      else if (List.range mu.length).any
          (fun i => (mu.getD i []).length ≠ (mv.getD i []).length) then
        .errored "WebGL Utilities: linearSubtract(): Cannot subtract matrices of different lengths."
      else
        .ok (.mat ((List.range mu.length).map fun i =>
          (List.range (mu.getD i []).length).map fun j => idx mu i j - idx mv i j))
  | .mat _, .vec _ =>
      .errored "WebGL Utilities: linearSubtract(): Cannot subtract vector/matrix and non-vector/matrix variables."
  | .vec _, .mat _ =>
      .errored "WebGL Utilities: linearSubtract(): Cannot subtract vector/matrix and non-vector/matrix variables."
  | .vec u, .vec v =>
      if u.length ≠ v.length then
        .errored "WebGL Utilities: linearSubtract(): Cannot subtract vectors/matrices of different lengths."
      else
        .ok (.vec ((List.range u.length).map fun i =>
          u.getD i default - v.getD i default))

/-- Source `linearMultiply`: matrix-by-matrix row-by-column product,
matrix-by-vector linear map, or elementwise vector product, dispatched on the
`matrix` tags; shape mismatches report a diagnostic and return `undefined`.
In the residual branch with a plain first operand and a matrix second operand
of equal length the source multiplies a number by a row array, which JS
coerces to `NaN` for the row shapes the library builds; that branch, which no
claim exercises, is modelled by the domain's `undefined` element. -/
def linearMultiply : LinVal α → LinVal α → JsOutcome (LinVal α)
  | .mat mu, .mat mv =>
      if mu.length ≠ mv.length then
        .errored "WebGL Utilities: linearMultiply(): Cannot multiply vectors/matrices of different dimensions."
      else if (List.range mu.length).any
          (fun i => (mu.getD i []).length ≠ (mv.getD i []).length) then
        .errored "WebGL Utilities: linearMultiply(): Cannot multiply vectors/matrices of different dimensions."
      else
        .ok (.mat ((List.range mu.length).map fun i =>
          (List.range mv.length).map fun j =>
            (List.range mu.length).foldl (fun s k => s + idx mu i k * idx mv k j) 0))
  | .mat mu, .vec v =>
      if mu.length = v.length then
        .ok (.vec ((List.range v.length).map fun i =>
          (List.range v.length).foldl (fun s j => s + idx mu i j * v.getD j default) 0))
      else
        .errored "WebGL Utilities: linearMultiply(): Cannot multiply vectors/matrices of different dimensions."
  | .vec u, .mat mv =>
      if u.length ≠ mv.length then
        .errored "WebGL Utilities: linearMultiply(): Cannot multiply vectors/matrices of different dimensions."
      else
        .ok (.vec ((List.range u.length).map fun _ => (default : α)))
  | .vec u, .vec v =>
      if u.length ≠ v.length then
        .errored "WebGL Utilities: linearMultiply(): Cannot multiply vectors/matrices of different dimensions."
      else
        .ok (.vec ((List.range u.length).map fun i =>
          u.getD i default * v.getD i default))

/-- Source `translateMatrix`: identity with the offsets written into the last
column of rows 0-2.  The 3-array overload destructures into the same three
scalars before reaching this code. -/
def translateMatrix (x y z : α) : LinVal α :=
  .mat (setE (setE (setE (rowsOf (mat4 ([] : List α))) 0 3 x) 1 3 y) 2 3 z)

/-- Source `degreesToRadians`: `(degrees * Math.PI) / 180`, with `Math.PI`
passed in as the model of the JS builtin constant. -/
def degreesToRadians (piV degrees : α) : α := degrees * piV / (180 : α)

/-- Source `rotateX`; `Math.cos` and `Math.sin` are passed as parameters. -/
def rotateX (cosF sinF : α → α) (piV theta : α) : LinVal α :=
  mat4 [1, 0, 0, 0,
        0, cosF (degreesToRadians piV theta), -sinF (degreesToRadians piV theta), 0,
        0, sinF (degreesToRadians piV theta), cosF (degreesToRadians piV theta), 0,
        0, 0, 0, 1]

/-- Source `rotateY`. -/
def rotateY (cosF sinF : α → α) (piV theta : α) : LinVal α :=
  mat4 [cosF (degreesToRadians piV theta), 0, sinF (degreesToRadians piV theta), 0,
        0, 1, 0, 0,
        -sinF (degreesToRadians piV theta), 0, cosF (degreesToRadians piV theta), 0,
        0, 0, 0, 1]

/-- Source `rotateZ`. -/
def rotateZ (cosF sinF : α → α) (piV theta : α) : LinVal α :=
  mat4 [cosF (degreesToRadians piV theta), -sinF (degreesToRadians piV theta), 0, 0,
        sinF (degreesToRadians piV theta), cosF (degreesToRadians piV theta), 0, 0,
        0, 0, 1, 0,
        0, 0, 0, 1]

/-- Source `scalingMatrix`: identity with the scale factors on the diagonal;
the 3-array overload destructures into the same three scalars. -/
def scalingMatrix (x y z : α) : LinVal α :=
  .mat (setE (setE (setE (rowsOf (mat4 ([] : List α))) 0 0 x) 1 1 y) 2 2 z)

/-- Source `dotProduct`: reports a diagnostic on mismatched lengths but still
computes the sum over the first operand's indices. -/
def dotProduct (u v : List α) : List String × α :=
  ((if u.length ≠ v.length then
      ["WebGL Utilities dotProduct(): Vectors are not the same dimension."]
    else []),
   (List.range u.length).foldl (fun s i => s + u.getD i default * v.getD i default) 0)

/-- Source `negateElements`. -/
def negateElements (u : List α) : List α := u.map (fun x => -x)

/-- Source `crossProduct`: requires both arguments to have at least three
components. -/
def crossProduct (u v : List α) : JsOutcome (List α) :=
  if u.length < 3 then
    .errored "WebGL Utilities: crossProduct(): First argument is not a vector of minimum size, 3."
  else if v.length < 3 then
    .errored "WebGL Utilities: crossProduct(): Second argument is not a vector of minimum size, 3."
  else
    .ok [u.getD 1 default * v.getD 2 default - u.getD 2 default * v.getD 1 default,
         u.getD 2 default * v.getD 0 default - u.getD 0 default * v.getD 2 default,
         u.getD 0 default * v.getD 1 default - u.getD 1 default * v.getD 0 default]

/-- Source `vectorLength`: `Math.sqrt(dotProduct(u, u))`. -/
def vectorLength (u : List α) : α := JsMathOps.sqrtOp (dotProduct u u).2

/-- Source `normalizeVectors`: computes the length, reports a diagnostic when
the length is not finite, and otherwise divides every component by it; with
`excludeLastComponent` the last component is popped first and pushed back
unchanged (the pop on an empty array, never reached by the claims, is
modelled by dropping nothing). -/
def normalizeVectors (u : List α) (excludeLast : Bool) : JsOutcome (List α) :=
  let core := if excludeLast then u.dropLast else u
  let len := vectorLength core
  if !(JsMathOps.isFiniteOp len) then
    .errored "WebGL Utilities normalizeVectors(): Vector has zero length."
  else
    .ok ((core.map fun x => x / len) ++ (if excludeLast then u.drop (u.length - 1) else []))

/-- Source `rotateMatrix`: normalizes the axis then builds the Rodrigues
rotation matrix.  When `normalizeVectors` fails the source reads a component
of `undefined`, a thrown `TypeError`. -/
def rotateMatrix (cosF sinF : α → α) (piV angle : α) (axis : List α) :
    JsOutcome (LinVal α) :=
  match normalizeVectors axis false with
  | .ok v =>
      let x := v.getD 0 default
      let y := v.getD 1 default
      let z := v.getD 2 default
      let c := cosF (degreesToRadians piV angle)
      let omc := 1 - c
      let s := sinF (degreesToRadians piV angle)
      .ok (mat4 (vec4 [x * x * omc + c, x * y * omc - z * s, x * z * omc + y * s, 0] ++
                 vec4 [x * y * omc + z * s, y * y * omc + c, y * z * omc - x * s, 0] ++
                 vec4 [x * z * omc - y * s, y * z * omc + x * s, z * z * omc + c, 0] ++
                 vec4 []))
  | _ => .thrown "TypeError: cannot read a component of undefined"

/-- Source `viewMatrixAt` (the second parameter is `at` in the source, a
reserved word here): validates the three 3-vectors, returns the identity when
`eye` equals the target, and otherwise assembles the look-at view matrix.
A failure of an intermediate step would make the source dereference
`undefined`, a thrown `TypeError`; with 3-component inputs every step
succeeds at the exact domains. -/
def viewMatrixAt (eye target up : List α) : JsOutcome (LinVal α) :=
  if eye.length ≠ 3 then
    .errored "WebGL Utilities: viewMatrixAt(): First parameter [eye] must be in the form of a vec3."
  else if target.length ≠ 3 then
    .errored "WebGL Utilities: viewMatrixAt(): First parameter [at] must be in the form of a vec3."
  else if up.length ≠ 3 then
    .errored "WebGL Utilities: viewMatrixAt(): First parameter [up] must be in the form of a vec3."
  else if linearEquivalence (.vec eye) (.vec target) then
    .ok (mat4 [])
  else
    match linearSubtract (.vec target) (.vec eye) with
    | .ok (.vec d) =>
        match normalizeVectors d false with
        | .ok v =>
            match crossProduct v up with
            | .ok cvu =>
                match normalizeVectors cvu false with
                | .ok n =>
                    match crossProduct n v with
                    | .ok ncv =>
                        match normalizeVectors ncv false with
                        | .ok u =>
                            let vNeg := negateElements v
                            .ok (mat4 (vec4 (n ++ [-(dotProduct n eye).2]) ++
                                       vec4 (u ++ [-(dotProduct u eye).2]) ++
                                       vec4 (vNeg ++ [-(dotProduct vNeg eye).2]) ++
                                       vec4 []))
                        | _ => .thrown "TypeError: cannot use undefined"
                    | _ => .thrown "TypeError: cannot use undefined"
                | _ => .thrown "TypeError: cannot use undefined"
            | _ => .thrown "TypeError: cannot use undefined"
        | _ => .thrown "TypeError: cannot use undefined"
    | _ => .thrown "TypeError: cannot use undefined"

/-- Source `buildOrthographicMatrix`: throws (a hard JS `throw`, not the
diagnostic channel) when any paired bounds coincide, otherwise writes the
orthographic scale and translation terms over an identity. -/
def buildOrthographicMatrix (left right bottom top near far : α) :
    JsOutcome (LinVal α) :=
  if left = right then .thrown "ortho(): left and right are equal"
  else if bottom = top then .thrown "ortho(): bottom and top are equal"
  else if near = far then .thrown "ortho(): near and far are equal"
  else
    let w := right - left
    let h := top - bottom
    let d := far - near
    .ok (.mat (setE (setE (setE (setE (setE (setE (rowsOf (mat4 ([] : List α)))
      0 0 ((2 : α) / w)) 1 1 ((2 : α) / h)) 2 2 (-(2 : α) / d))
      0 3 (-(left + right) / w)) 1 3 (-(top + bottom) / h)) 2 3 (-(near + far) / d)))

/-- Source `buildPerspectiveMatrix`; `Math.tan` is passed as a parameter. -/
def buildPerspectiveMatrix (tanF : α → α) (piV fovY aspect near far : α) :
    JsOutcome (LinVal α) :=
  let f := (1 : α) / tanF (degreesToRadians piV fovY / (2 : α))
  let d := far - near
  .ok (.mat (setE (setE (setE (setE (setE (setE (rowsOf (mat4 ([] : List α)))
    0 0 (f / aspect)) 1 1 f) 2 2 (-(near + far) / d))
    2 3 ((-(2 : α) * near * far) / d)) 3 2 (-(1 : α))) 3 3 0))

/-- Source `transposeMatrix` inner loops: row `i` of the result collects
`m[j][i]` for `j` below the length of row `i` of the input. -/
def transposeRows (m : Mat α) : Mat α :=
  (List.range m.length).map fun i =>
    (List.range (m.getD i []).length).map fun j => idx m j i

/-- Source `transposeMatrix`: rejects non-matrices, otherwise transposes and
tags the result. -/
def transposeMatrix : LinVal α → JsOutcome (LinVal α)
  | .vec _ => .errored "WebGL Utilities: transposeMatrix(): Cannot transpose a non-matrix."
  | .mat m => .ok (.mat (transposeRows m))

/-- Model of the TypedArray construction `new Float32Array(n)` followed by
sequential writes of `xs`: writes beyond the buffer are dropped, unwritten
slots stay `0`.  The 32-bit rounding of the store is modelled as
value-preserving (the claims compare layouts, not rounded values). -/
def float32ArrayOf (n : Nat) (xs : List α) : List α :=
  xs.take n ++ List.replicate (n - xs.length) 0

/-- Source `linearFlatten`: a tagged matrix is transposed first and the
buffer is sized from the transposed value (`v.length * v[0].length`); a plain
array of numbers is copied as is.  Untagged arrays of arrays (used only by
the out-of-scope demo glue) are not modelled. -/
def linearFlatten : LinVal α → List α
  | .vec u => float32ArrayOf u.length u
  | .mat m =>
      let t := transposeRows m
      float32ArrayOf (t.length * (t.getD 0 []).length) t.flatten

/-- Source `linearScale` loop body `s * u[i]` specialised to a row array
element: JS coerces the array to its comma-joined string, so an empty row
behaves as `0`, a singleton as its element (doubles round-trip through their
string form), and any longer row as `NaN`. -/
def jsMulNumArray (s : JsNum) : List JsNum → JsNum
  | [] => s * (0 : JsNum)
  | [x] => s * x
  | _ => JsNum.nan

/-- Source `linearScale`: pushes `s * u[i]` for every element of `u` onto a
fresh plain array.  For a vector this is componentwise scaling; for a tagged
matrix each `u[i]` is a row array and the JS multiplication coerces it as in
`jsMulNumArray`.  The result is never tagged.  Stated at `JsNum`, the only
domain that can express the coercion. -/
def linearScale (s : JsNum) : LinVal JsNum → LinVal JsNum
  | .vec u => .vec (u.map fun x => s * x)
  | .mat m => .vec (m.map (jsMulNumArray s))

/-- Source `det2`. -/
def det2 (m : Mat α) : α := idx m 0 0 * idx m 1 1 - idx m 0 1 * idx m 1 0

/-- Source `det3` (the closed-form six-term expansion, in source order). -/
def det3 (m : Mat α) : α :=
  idx m 0 0 * idx m 1 1 * idx m 2 2 +
  idx m 0 1 * idx m 1 2 * idx m 2 0 +
  idx m 0 2 * idx m 2 1 * idx m 1 0 -
  idx m 2 0 * idx m 1 1 * idx m 0 2 -
  idx m 1 0 * idx m 0 1 * idx m 2 2 -
  idx m 0 0 * idx m 1 2 * idx m 2 1

/-- Source `det4`: Laplace expansion along the first row, the four 3x3 minors
built as plain arrays of `vec3` rows. -/
def det4 (m : Mat α) : α :=
  let m0 : Mat α := [vec3 [idx m 1 1, idx m 1 2, idx m 1 3],
                     vec3 [idx m 2 1, idx m 2 2, idx m 2 3],
                     vec3 [idx m 3 1, idx m 3 2, idx m 3 3]]
  let m1 : Mat α := [vec3 [idx m 1 0, idx m 1 2, idx m 1 3],
                     vec3 [idx m 2 0, idx m 2 2, idx m 2 3],
                     vec3 [idx m 3 0, idx m 3 2, idx m 3 3]]
  let m2 : Mat α := [vec3 [idx m 1 0, idx m 1 1, idx m 1 3],
                     vec3 [idx m 2 0, idx m 2 1, idx m 2 3],
                     vec3 [idx m 3 0, idx m 3 1, idx m 3 3]]
  let m3 : Mat α := [vec3 [idx m 1 0, idx m 1 1, idx m 1 2],
                     vec3 [idx m 2 0, idx m 2 1, idx m 2 2],
                     vec3 [idx m 3 0, idx m 3 1, idx m 3 2]]
  idx m 0 0 * det3 m0 - idx m 0 1 * det3 m1 + idx m 0 2 * det3 m2 - idx m 0 3 * det3 m3

/-- Source `calculateDeterminant`: reports a diagnostic for an untagged value
but still dispatches on the length; lengths outside 2..4 return `undefined`.
For an untagged value the source then indexes numbers as arrays, producing a
`NaN` result that the exact domains cannot express; no claim exercises that
path (kept as `none`). -/
def calculateDeterminant : LinVal α → List String × Option α
  | .mat m =>
      ([], if m.length = 2 then some (det2 m)
           else if m.length = 3 then some (det3 m)
           else if m.length = 4 then some (det4 m)
           else none)
  | .vec _ =>
      (["WebGL Utilities: calculateDeterminant(): Variable is not a matrix."], none)

/-- Source `inverse2`: fresh identity, determinant, then the four signed
entries divided by the determinant, written in source order. -/
def inverse2 (m : Mat α) : Mat α :=
  let a := rowsOf (mat2 ([] : List α))
  let d := det2 m
  setE (setE (setE (setE a
    0 0 (idx m 1 1 / d))
    0 1 (-(idx m 0 1) / d))
    1 0 (-(idx m 1 0) / d))
    1 1 (idx m 0 0 / d)

/-- Source `inverse3`: the nine 2x2 minors as plain arrays of `vec2` rows,
then the signed cofactors divided by the determinant, in source order. -/
def inverse3 (m : Mat α) : Mat α :=
  let a := rowsOf (mat3 ([] : List α))
  let d := det3 m
  let a00 : Mat α := [vec2 [idx m 1 1, idx m 1 2], vec2 [idx m 2 1, idx m 2 2]]
  let a01 : Mat α := [vec2 [idx m 1 0, idx m 1 2], vec2 [idx m 2 0, idx m 2 2]]
  let a02 : Mat α := [vec2 [idx m 1 0, idx m 1 1], vec2 [idx m 2 0, idx m 2 1]]
  let a10 : Mat α := [vec2 [idx m 0 1, idx m 0 2], vec2 [idx m 2 1, idx m 2 2]]
  let a11 : Mat α := [vec2 [idx m 0 0, idx m 0 2], vec2 [idx m 2 0, idx m 2 2]]
  let a12 : Mat α := [vec2 [idx m 0 0, idx m 0 1], vec2 [idx m 2 0, idx m 2 1]]
  let a20 : Mat α := [vec2 [idx m 0 1, idx m 0 2], vec2 [idx m 1 1, idx m 1 2]]
  let a21 : Mat α := [vec2 [idx m 0 0, idx m 0 2], vec2 [idx m 1 0, idx m 1 2]]
  let a22 : Mat α := [vec2 [idx m 0 0, idx m 0 1], vec2 [idx m 1 0, idx m 1 1]]
  setE (setE (setE (setE (setE (setE (setE (setE (setE a
    0 0 (det2 a00 / d))
    0 1 (-(det2 a10) / d))
    0 2 (det2 a20 / d))
    1 0 (-(det2 a01) / d))
    1 1 (det2 a11 / d))
    1 2 (-(det2 a21) / d))
    2 0 (det2 a02 / d))
    2 1 (-(det2 a12) / d))
    2 2 (det2 a22 / d)

/-- Source `inverse4`: the sixteen 3x3 minors as plain arrays of `vec3` rows,
then the signed cofactors divided by the determinant, in source order. -/
def inverse4 (m : Mat α) : Mat α :=
  let a := rowsOf (mat4 ([] : List α))
  let d := det4 m
  let a00 : Mat α := [vec3 [idx m 1 1, idx m 1 2, idx m 1 3],
                      vec3 [idx m 2 1, idx m 2 2, idx m 2 3],
                      vec3 [idx m 3 1, idx m 3 2, idx m 3 3]]
  let a01 : Mat α := [vec3 [idx m 1 0, idx m 1 2, idx m 1 3],
                      vec3 [idx m 2 0, idx m 2 2, idx m 2 3],
                      vec3 [idx m 3 0, idx m 3 2, idx m 3 3]]
  let a02 : Mat α := [vec3 [idx m 1 0, idx m 1 1, idx m 1 3],
                      vec3 [idx m 2 0, idx m 2 1, idx m 2 3],
                      vec3 [idx m 3 0, idx m 3 1, idx m 3 3]]
  let a03 : Mat α := [vec3 [idx m 1 0, idx m 1 1, idx m 1 2],
                      vec3 [idx m 2 0, idx m 2 1, idx m 2 2],
                      vec3 [idx m 3 0, idx m 3 1, idx m 3 2]]
  let a10 : Mat α := [vec3 [idx m 0 1, idx m 0 2, idx m 0 3],
                      vec3 [idx m 2 1, idx m 2 2, idx m 2 3],
                      vec3 [idx m 3 1, idx m 3 2, idx m 3 3]]
  let a11 : Mat α := [vec3 [idx m 0 0, idx m 0 2, idx m 0 3],
                      vec3 [idx m 2 0, idx m 2 2, idx m 2 3],
                      vec3 [idx m 3 0, idx m 3 2, idx m 3 3]]
  let a12 : Mat α := [vec3 [idx m 0 0, idx m 0 1, idx m 0 3],
                      vec3 [idx m 2 0, idx m 2 1, idx m 2 3],
                      vec3 [idx m 3 0, idx m 3 1, idx m 3 3]]
  let a13 : Mat α := [vec3 [idx m 0 0, idx m 0 1, idx m 0 2],
                      vec3 [idx m 2 0, idx m 2 1, idx m 2 2],
                      vec3 [idx m 3 0, idx m 3 1, idx m 3 2]]
  let a20 : Mat α := [vec3 [idx m 0 1, idx m 0 2, idx m 0 3],
                      vec3 [idx m 1 1, idx m 1 2, idx m 1 3],
                      vec3 [idx m 3 1, idx m 3 2, idx m 3 3]]
  let a21 : Mat α := [vec3 [idx m 0 0, idx m 0 2, idx m 0 3],
                      vec3 [idx m 1 0, idx m 1 2, idx m 1 3],
                      vec3 [idx m 3 0, idx m 3 2, idx m 3 3]]
  let a22 : Mat α := [vec3 [idx m 0 0, idx m 0 1, idx m 0 3],
                      vec3 [idx m 1 0, idx m 1 1, idx m 1 3],
                      vec3 [idx m 3 0, idx m 3 1, idx m 3 3]]
  let a23 : Mat α := [vec3 [idx m 0 0, idx m 0 1, idx m 0 2],
                      vec3 [idx m 1 0, idx m 1 1, idx m 1 2],
                      vec3 [idx m 3 0, idx m 3 1, idx m 3 2]]
  let a30 : Mat α := [vec3 [idx m 0 1, idx m 0 2, idx m 0 3],
                      vec3 [idx m 1 1, idx m 1 2, idx m 1 3],
                      vec3 [idx m 2 1, idx m 2 2, idx m 2 3]]
  let a31 : Mat α := [vec3 [idx m 0 0, idx m 0 2, idx m 0 3],
                      vec3 [idx m 1 0, idx m 1 2, idx m 1 3],
                      vec3 [idx m 2 0, idx m 2 2, idx m 2 3]]
  let a32 : Mat α := [vec3 [idx m 0 0, idx m 0 1, idx m 0 3],
                      vec3 [idx m 1 0, idx m 1 1, idx m 1 3],
                      vec3 [idx m 2 0, idx m 2 1, idx m 2 3]]
  let a33 : Mat α := [vec3 [idx m 0 0, idx m 0 1, idx m 0 2],
                      vec3 [idx m 1 0, idx m 1 1, idx m 1 2],
                      vec3 [idx m 2 0, idx m 2 1, idx m 2 2]]
  setE (setE (setE (setE (setE (setE (setE (setE (setE (setE (setE (setE
  (setE (setE (setE (setE a
    0 0 (det3 a00 / d))
    0 1 (-(det3 a10) / d))
    0 2 (det3 a20 / d))
    0 3 (-(det3 a30) / d))
    1 0 (-(det3 a01) / d))
    1 1 (det3 a11 / d))
    1 2 (-(det3 a21) / d))
    1 3 (det3 a31 / d))
    2 0 (det3 a02 / d))
    2 1 (-(det3 a12) / d))
    2 2 (det3 a22 / d))
    2 3 (-(det3 a32) / d))
    3 0 (-(det3 a03) / d))
    3 1 (det3 a13 / d))
    3 2 (-(det3 a23) / d))
    3 3 (det3 a33 / d)

/-- Source `calculateInverseMatrix`: reports a diagnostic for an untagged
value but still dispatches on the length (the untagged path then indexes
numbers as arrays, a `NaN` result the exact domains cannot express and no
claim exercises; kept as `none`); lengths outside 2..4 return `undefined`.
For a tagged square matrix no diagnostic is reported and no exception is
thrown: the inversion path contains no zero-determinant guard. -/
def calculateInverseMatrix : LinVal α → List String × Option (LinVal α)
  | .mat m =>
      ([], if m.length = 2 then some (.mat (inverse2 m))
           else if m.length = 3 then some (.mat (inverse3 m))
           else if m.length = 4 then some (.mat (inverse4 m))
           else none)
  | .vec _ =>
      (["WebGL Utilities: calculateInverseMatrix(): Variable is not a matrix."], none)

/-- Source `normalizeMatrix`: inverse of the transpose; with the flag set the
upper-left 3x3 block is copied into a fresh `mat3`.  The paths on which the
source would dereference `undefined` are not exercised by any claim. -/
def normalizeMatrix (v : LinVal α) (flag : Bool) : List String × Option (LinVal α) :=
  match transposeMatrix v with
  | .ok t =>
      let p := calculateInverseMatrix t
      if flag ≠ true then p
      else
        (p.1, match p.2 with
          | some a =>
              some (.mat ((List.range 3).map fun i =>
                (List.range 3).map fun j => idx (rowsOf a) i j))
          | none => none)
  | _ => (["WebGL Utilities: transposeMatrix(): Cannot transpose a non-matrix."], none)

end Embedding

/-- Spec-side reading of a matrix serialized in column-major order: for each
column index the entries of that column, top to bottom, concatenated.
Written from the specification's words, for comparison with the library's
`linearFlatten`. -/
def specColumnMajor (m : Mat ℚ) : List ℚ :=
  ((List.range (m.getD 0 []).length).map fun j =>
    (List.range m.length).map fun i => idx m i j).flatten

section ClaimTheorems

set_option maxHeartbeats 4000000 in
/-- C1: for every tagged d×d matrix (d ∈ {2,3,4}) with non-zero determinant,
`calculateInverseMatrix` dispatches (without diagnostics) to the adjugate
divided by the determinant, and `linearMultiply` of the matrix with that
inverse is exactly the d×d identity (exact arithmetic). -/
theorem C1_multiply_inverse_is_identity :
    (∀ a b c d : ℚ, det2 [[a, b], [c, d]] ≠ 0 →
      calculateInverseMatrix (.mat [[a, b], [c, d]]) =
        ([], some (.mat (inverse2 [[a, b], [c, d]]))) ∧
      linearMultiply (.mat [[a, b], [c, d]]) (.mat (inverse2 [[a, b], [c, d]])) =
        .ok (.mat [[1, 0], [0, 1]])) ∧
    (∀ m00 m01 m02 m10 m11 m12 m20 m21 m22 : ℚ,
      det3 [[m00, m01, m02], [m10, m11, m12], [m20, m21, m22]] ≠ 0 →
      calculateInverseMatrix (.mat [[m00, m01, m02], [m10, m11, m12], [m20, m21, m22]]) =
        ([], some (.mat (inverse3 [[m00, m01, m02], [m10, m11, m12], [m20, m21, m22]]))) ∧
      linearMultiply (.mat [[m00, m01, m02], [m10, m11, m12], [m20, m21, m22]])
          (.mat (inverse3 [[m00, m01, m02], [m10, m11, m12], [m20, m21, m22]])) =
        .ok (.mat [[1, 0, 0], [0, 1, 0], [0, 0, 1]])) ∧
    (∀ m00 m01 m02 m03 m10 m11 m12 m13 m20 m21 m22 m23 m30 m31 m32 m33 : ℚ,
      det4 [[m00, m01, m02, m03], [m10, m11, m12, m13],
            [m20, m21, m22, m23], [m30, m31, m32, m33]] ≠ 0 →
      calculateInverseMatrix (.mat [[m00, m01, m02, m03], [m10, m11, m12, m13],
            [m20, m21, m22, m23], [m30, m31, m32, m33]]) =
        ([], some (.mat (inverse4 [[m00, m01, m02, m03], [m10, m11, m12, m13],
            [m20, m21, m22, m23], [m30, m31, m32, m33]]))) ∧
      linearMultiply (.mat [[m00, m01, m02, m03], [m10, m11, m12, m13],
            [m20, m21, m22, m23], [m30, m31, m32, m33]])
          (.mat (inverse4 [[m00, m01, m02, m03], [m10, m11, m12, m13],
            [m20, m21, m22, m23], [m30, m31, m32, m33]])) =
        .ok (.mat [[1, 0, 0, 0], [0, 1, 0, 0], [0, 0, 1, 0], [0, 0, 0, 1]])) := by
  refine ⟨fun a b c d h => ⟨rfl, ?_⟩, fun m00 m01 m02 m10 m11 m12 m20 m21 m22 h => ⟨rfl, ?_⟩,
    fun m00 m01 m02 m03 m10 m11 m12 m13 m20 m21 m22 m23 m30 m31 m32 m33 h => ⟨rfl, ?_⟩⟩
  · simp [linearMultiply, inverse2, mat2, vec2, rowsOf, setE, idx, List.range_succ,
      List.set]
    repeat' apply And.intro
    all_goals
      simp only [← mul_div_assoc, div_add_div_same]
      rw [div_eq_iff h]
      simp only [det2, idx, List.getD_cons_zero, List.getD_cons_succ]
      ring
  · simp [linearMultiply, inverse3, mat3, vec3, vec2, rowsOf, setE, idx, List.range_succ,
      List.set]
    repeat' apply And.intro
    all_goals
      simp only [← mul_div_assoc, div_add_div_same]
      rw [div_eq_iff h]
      simp only [det3, det2, vec2, idx, List.getD_cons_zero, List.getD_cons_succ]
      ring
  · simp [linearMultiply, inverse4, mat4, vec4, rowsOf, setE, idx, List.range_succ,
      List.set]
    repeat' apply And.intro
    all_goals
      simp only [← mul_div_assoc, div_add_div_same]
      rw [div_eq_iff h]
      simp only [det4, det3, vec3, idx, List.getD_cons_zero, List.getD_cons_succ]
      ring

/-- Witness for C1 at concrete invertible matrices of each dimension. -/
theorem C1_multiply_inverse_is_identity_witness :
    (det2 ([[1, 2], [3, 4]] : Mat ℚ) ≠ 0 ∧
      linearMultiply (.mat ([[1, 2], [3, 4]] : Mat ℚ)) (.mat (inverse2 [[1, 2], [3, 4]])) =
        .ok (.mat [[1, 0], [0, 1]])) ∧
    (det3 ([[1, 0, 2], [0, 3, 0], [1, 0, 4]] : Mat ℚ) ≠ 0 ∧
      linearMultiply (.mat ([[1, 0, 2], [0, 3, 0], [1, 0, 4]] : Mat ℚ))
          (.mat (inverse3 [[1, 0, 2], [0, 3, 0], [1, 0, 4]])) =
        .ok (.mat [[1, 0, 0], [0, 1, 0], [0, 0, 1]])) ∧
    (det4 ([[2, 0, 0, 1], [0, 3, 0, 2], [1, 0, 4, 0], [0, 0, 0, 5]] : Mat ℚ) ≠ 0 ∧
      linearMultiply (.mat ([[2, 0, 0, 1], [0, 3, 0, 2], [1, 0, 4, 0], [0, 0, 0, 5]] : Mat ℚ))
          (.mat (inverse4 [[2, 0, 0, 1], [0, 3, 0, 2], [1, 0, 4, 0], [0, 0, 0, 5]])) =
        .ok (.mat [[1, 0, 0, 0], [0, 1, 0, 0], [0, 0, 1, 0], [0, 0, 0, 1]])) :=
  ⟨⟨by norm_num [det2, idx], (C1_multiply_inverse_is_identity.1 1 2 3 4
      (by norm_num [det2, idx])).2⟩,
   ⟨by norm_num [det3, idx], (C1_multiply_inverse_is_identity.2.1 1 0 2 0 3 0 1 0 4
      (by norm_num [det3, idx])).2⟩,
   ⟨by norm_num [det4, det3, vec3, idx], (C1_multiply_inverse_is_identity.2.2
      2 0 0 1 0 3 0 2 1 0 4 0 0 0 0 5 (by norm_num [det4, det3, vec3, idx])).2⟩⟩

/-- C3: the orthographic builder throws (hard failure) exactly when a paired
bound coincides, and returns normally on every input with all three pairs
distinct. -/
theorem C3_ortho_throws_iff_degenerate :
    ∀ left right bottom top near far : ℚ,
      ((∃ msg, buildOrthographicMatrix left right bottom top near far = .thrown msg) ↔
        (left = right ∨ bottom = top ∨ near = far)) ∧
      (left ≠ right → bottom ≠ top → near ≠ far →
        ∃ M, buildOrthographicMatrix left right bottom top near far = .ok M) := by
  intro l r b t n f
  unfold buildOrthographicMatrix
  split_ifs with h1 h2 h3
  · exact ⟨⟨fun _ => Or.inl h1, fun _ => ⟨_, rfl⟩⟩, fun hl _ _ => absurd h1 hl⟩
  · exact ⟨⟨fun _ => Or.inr (Or.inl h2), fun _ => ⟨_, rfl⟩⟩, fun _ hb _ => absurd h2 hb⟩
  · exact ⟨⟨fun _ => Or.inr (Or.inr h3), fun _ => ⟨_, rfl⟩⟩, fun _ _ hn => absurd h3 hn⟩
  · refine ⟨⟨?_, ?_⟩, fun _ _ _ => ⟨_, rfl⟩⟩
    · rintro ⟨msg, hmsg⟩
      simp at hmsg
    · rintro (h | h | h)
      · exact absurd h h1
      · exact absurd h h2
      · exact absurd h h3

/-- Witness for C3: a degenerate input throws, a distinct triple returns
normally. -/
theorem C3_ortho_throws_iff_degenerate_witness :
    (∃ msg, buildOrthographicMatrix (1 : ℚ) 1 0 1 0 1 = .thrown msg) ∧
    (∃ M, buildOrthographicMatrix (0 : ℚ) 1 0 1 0 1 = .ok M) :=
  ⟨(C3_ortho_throws_iff_degenerate 1 1 0 1 0 1).1.2 (Or.inl rfl),
   (C3_ortho_throws_iff_degenerate 0 1 0 1 0 1).2 (by norm_num) (by norm_num) (by norm_num)⟩

/-- C4: each matrix constructor with no arguments yields the tagged identity,
and multiplying that identity on the left of any same-dimension tagged matrix
returns the matrix unchanged. -/
theorem C4_zero_arg_identity_left_unit :
    (mat2 ([] : List ℚ) = .mat [[1, 0], [0, 1]]) ∧
    (mat3 ([] : List ℚ) = .mat [[1, 0, 0], [0, 1, 0], [0, 0, 1]]) ∧
    (mat4 ([] : List ℚ) = .mat [[1, 0, 0, 0], [0, 1, 0, 0], [0, 0, 1, 0], [0, 0, 0, 1]]) ∧
    (∀ a b c d : ℚ,
      linearMultiply (mat2 []) (.mat [[a, b], [c, d]]) = .ok (.mat [[a, b], [c, d]])) ∧
    (∀ a b c d e f g h i : ℚ,
      linearMultiply (mat3 []) (.mat [[a, b, c], [d, e, f], [g, h, i]]) =
        .ok (.mat [[a, b, c], [d, e, f], [g, h, i]])) ∧
    (∀ a b c d e f g h i j k l m n o p : ℚ,
      linearMultiply (mat4 []) (.mat [[a, b, c, d], [e, f, g, h], [i, j, k, l], [m, n, o, p]]) =
        .ok (.mat [[a, b, c, d], [e, f, g, h], [i, j, k, l], [m, n, o, p]])) := by
  refine ⟨rfl, rfl, rfl, ?_, ?_, ?_⟩
  · intro a b c d
    simp [linearMultiply, mat2, vec2, idx, List.range_succ]
  · intro a b c d e f g h i
    simp [linearMultiply, mat3, vec3, idx, List.range_succ]
  · intro a b c d e f g h i j k l m n o p
    simp [linearMultiply, mat4, vec4, idx, List.range_succ]

/-- C5: flattening a plain vector preserves length and order; flattening a
tagged d×d matrix yields d² entries equal to the row-major flattening of the
transpose, which is the column-major serialization of the matrix. -/
theorem C5_flatten_layout :
    (∀ u : List ℚ,
      (linearFlatten (.vec u)).length = u.length ∧ linearFlatten (.vec u) = u) ∧
    (∀ a b c d : ℚ,
      (linearFlatten (.mat [[a, b], [c, d]])).length = 4 ∧
      linearFlatten (.mat [[a, b], [c, d]]) = (transposeRows [[a, b], [c, d]]).flatten ∧
      linearFlatten (.mat [[a, b], [c, d]]) = specColumnMajor [[a, b], [c, d]]) ∧
    (∀ a b c d e f g h i : ℚ,
      (linearFlatten (.mat [[a, b, c], [d, e, f], [g, h, i]])).length = 9 ∧
      linearFlatten (.mat [[a, b, c], [d, e, f], [g, h, i]]) =
        (transposeRows [[a, b, c], [d, e, f], [g, h, i]]).flatten ∧
      linearFlatten (.mat [[a, b, c], [d, e, f], [g, h, i]]) =
        specColumnMajor [[a, b, c], [d, e, f], [g, h, i]]) ∧
    (∀ a b c d e f g h i j k l m n o p : ℚ,
      (linearFlatten (.mat [[a, b, c, d], [e, f, g, h], [i, j, k, l], [m, n, o, p]])).length = 16 ∧
      linearFlatten (.mat [[a, b, c, d], [e, f, g, h], [i, j, k, l], [m, n, o, p]]) =
        (transposeRows [[a, b, c, d], [e, f, g, h], [i, j, k, l], [m, n, o, p]]).flatten ∧
      linearFlatten (.mat [[a, b, c, d], [e, f, g, h], [i, j, k, l], [m, n, o, p]]) =
        specColumnMajor [[a, b, c, d], [e, f, g, h], [i, j, k, l], [m, n, o, p]]) := by
  refine ⟨fun u => ⟨?_, ?_⟩, fun a b c d => ⟨rfl, rfl, rfl⟩,
    fun a b c d e f g h i => ⟨rfl, rfl, rfl⟩,
    fun a b c d e f g h i j k l m n o p => ⟨rfl, rfl, rfl⟩⟩
  · simp [linearFlatten, float32ArrayOf]
  · simp [linearFlatten, float32ArrayOf]

/-- C6: mismatched shapes make addition and subtraction report a diagnostic
and return `undefined` (no usable value): different vector lengths, different
matrix dimensions, or a matrix paired with a non-matrix. -/
theorem C6_mismatch_reports_error :
    (∀ u v : List ℚ, u.length ≠ v.length →
      (∃ msg, linearAddition (.vec u) (.vec v) = .errored msg) ∧
      (∃ msg, linearSubtract (.vec u) (.vec v) = .errored msg)) ∧
    (∀ mu mv : Mat ℚ, mu.length ≠ mv.length →
      (∃ msg, linearAddition (.mat mu) (.mat mv) = .errored msg) ∧
      (∃ msg, linearSubtract (.mat mu) (.mat mv) = .errored msg)) ∧
    (∀ (mu : Mat ℚ) (v : List ℚ),
      (∃ msg, linearAddition (.mat mu) (.vec v) = .errored msg) ∧
      (∃ msg, linearAddition (.vec v) (.mat mu) = .errored msg) ∧
      (∃ msg, linearSubtract (.mat mu) (.vec v) = .errored msg) ∧
      (∃ msg, linearSubtract (.vec v) (.mat mu) = .errored msg)) := by
  refine ⟨fun u v h => ⟨?_, ?_⟩, fun mu mv h => ⟨?_, ?_⟩,
    fun mu v => ⟨⟨_, rfl⟩, ⟨_, rfl⟩, ⟨_, rfl⟩, ⟨_, rfl⟩⟩⟩
  · exact ⟨"WebGL Utilities: linearAddition(): Cannot add matrices of different dimensions.",
      by simp [linearAddition, h]⟩
  · exact ⟨"WebGL Utilities: linearSubtract(): Cannot subtract vectors/matrices of different lengths.",
      by simp [linearSubtract, h]⟩
  · exact ⟨"WebGL Utilities: linearAddition(): Cannot add matrices of different dimensions.",
      by simp [linearAddition, h]⟩
  · exact ⟨"WebGL Utilities: linearSubtract(): Cannot subtract matrices of different lengths.",
      by simp [linearSubtract, h]⟩

/-- Witness for C6: the specification's 3-vector plus 4-vector scenario and a
2×2 with 3×3 matrix pairing. -/
theorem C6_mismatch_reports_error_witness :
    ((∃ msg, linearAddition (.vec ([1, 2, 3] : List ℚ)) (.vec [1, 2, 3, 4]) = .errored msg) ∧
     (∃ msg, linearSubtract (.vec ([1, 2, 3] : List ℚ)) (.vec [1, 2, 3, 4]) = .errored msg)) ∧
    ((∃ msg, linearAddition (.mat ([[1, 0], [0, 1]] : Mat ℚ))
        (.mat [[1, 0, 0], [0, 1, 0], [0, 0, 1]]) = .errored msg) ∧
     (∃ msg, linearSubtract (.mat ([[1, 0], [0, 1]] : Mat ℚ))
        (.mat [[1, 0, 0], [0, 1, 0], [0, 0, 1]]) = .errored msg)) :=
  ⟨C6_mismatch_reports_error.1 [1, 2, 3] [1, 2, 3, 4] (by decide),
   C6_mismatch_reports_error.2.1 [[1, 0], [0, 1]] [[1, 0, 0], [0, 1, 0], [0, 0, 1]] (by decide)⟩

end ClaimTheorems

namespace JsNum

theorem zero_def : (0 : JsNum) = num 0 := rfl

theorem one_def : (1 : JsNum) = num 1 := rfl

theorem num_add_num (a b : ℚ) : num a + num b = num (a + b) := rfl

theorem num_mul_num (a b : ℚ) : num a * num b = num (a * b) := rfl

theorem neg_num (a : ℚ) : -num a = num (-a) := rfl

theorem num_sub_num (a b : ℚ) : num a - num b = num (a - b) := by
  show jsub _ _ = _
  simp [jsub, jadd, jneg, sub_eq_add_neg]

theorem num_div_num (a b : ℚ) (h : b ≠ 0) : num a / num b = num (a / b) := by
  show jdiv _ _ = _
  simp [jdiv, h]

theorem nan_add (x : JsNum) : nan + x = nan := by cases x <;> rfl

theorem add_nan (x : JsNum) : x + nan = nan := by cases x <;> rfl

theorem nan_mul (x : JsNum) : nan * x = nan := by cases x <;> rfl

theorem mul_nan (x : JsNum) : x * nan = nan := by cases x <;> rfl

theorem nan_sub (x : JsNum) : nan - x = nan := by cases x <;> rfl

theorem sub_nan (x : JsNum) : x - nan = nan := by cases x <;> rfl

/-- Division of any finite number by finite zero is never finite: `0/0` is
`NaN` and `a/0` a signed infinity. -/
theorem jfinite_num_div_zero (a : ℚ) : jfinite (num a / num 0) = false := by
  show jfinite (jdiv _ _) = false
  by_cases h : a = 0 <;> simp [jdiv, h, jfinite]

theorem ratSqrt_zero : Rat.sqrt 0 = 0 := by
  simp [Rat.sqrt]

end JsNum

theorem sqrtOp_jsnum (x : JsNum) : JsMathOps.sqrtOp x = JsNum.jsqrt x := rfl

theorem isFiniteOp_jsnum (x : JsNum) : JsMathOps.isFiniteOp x = JsNum.jfinite x := rfl

theorem num_zero_div_zero : (JsNum.num 0) / JsNum.num 0 = JsNum.nan := by
  show JsNum.jdiv _ _ = _
  simp [JsNum.jdiv]

section ClaimTheoremsSpecial

/-- C2 is refuted on matrices: `linearScale` with the tagged 2×2 identity and
scalar 2 returns the untagged plain array `[NaN, NaN]` (each loop step
multiplies the scalar by a row array, which JS coerces to `NaN`), not a value
of the matrix's shape with entries scaled; the function's own JSDoc promises
the scaled matrix. -/
theorem C2_linearScale_matrix_corrupt :
    linearScale (.num 2) (mat2 ([] : List JsNum)) = .vec [JsNum.nan, JsNum.nan] ∧
    linearScale (.num 2) (mat2 ([] : List JsNum)) ≠
      .mat [[.num 2, .num 0], [.num 0, .num 2]] ∧
    (∀ (s : JsNum) (u : List JsNum),
      linearScale s (.vec u) = .vec (u.map fun x => s * x)) :=
  ⟨rfl, by simp [linearScale, mat2, vec2, jsMulNumArray], fun _ _ => rfl⟩

/-- C8: `rotateZ(0)` is exactly the identity, and `rotateZ(90)` applied to
the vector `(1,0,0,1)` is exactly `(0,1,0,1)` (right-handed convention); the
angle is interpreted in degrees and converted to radians by
`degreesToRadians`.  Stated at `ℝ` with the JS builtins `Math.cos`,
`Math.sin`, `Math.PI` modelled by `Real.cos`, `Real.sin`, `Real.pi`. -/
theorem C8_rotateZ_identity_and_quarter_turn :
    rotateZ Real.cos Real.sin Real.pi (0 : ℝ) = mat4 [] ∧
    linearMultiply (rotateZ Real.cos Real.sin Real.pi (90 : ℝ)) (.vec [1, 0, 0, 1]) =
      .ok (.vec [0, 1, 0, 1]) := by
  constructor
  · have h0 : degreesToRadians Real.pi (0 : ℝ) = 0 := by
      simp [degreesToRadians]
    simp [rotateZ, h0, mat4, vec4]
  · have h90 : degreesToRadians Real.pi (90 : ℝ) = Real.pi / 2 := by
      unfold degreesToRadians
      ring
    simp [rotateZ, h90, Real.cos_pi_div_two, Real.sin_pi_div_two, mat4, vec4,
      linearMultiply, idx, List.range_succ]

set_option maxHeartbeats 2000000 in
/-- C7: for a tagged d×d matrix whose determinant evaluates to the number 0,
`calculateInverseMatrix` reports no diagnostic (empty diagnostic list),
throws nothing (the dispatch contains no throw or zero-determinant guard),
and returns the matrix of signed cofactors divided by the zero determinant,
every entry of which is non-finite (`Infinity`, `-Infinity` or `NaN`).
Stated over finite entries, which is no restriction: the IEEE special values
propagate through every product and sum of the determinant, so a determinant
equal to the number 0 can only arise from finite entries. -/
theorem C7_singular_inverse_unguarded_nonfinite :
    (∀ a b c d : ℚ,
      det2 [[JsNum.num a, .num b], [.num c, .num d]] = .num 0 →
      calculateInverseMatrix (.mat [[JsNum.num a, .num b], [.num c, .num d]]) =
        ([], some (.mat (inverse2 [[JsNum.num a, .num b], [.num c, .num d]]))) ∧
      ∀ r ∈ inverse2 [[JsNum.num a, .num b], [.num c, .num d]],
        ∀ x ∈ r, JsNum.jfinite x = false) ∧
    (∀ m00 m01 m02 m10 m11 m12 m20 m21 m22 : ℚ,
      det3 [[JsNum.num m00, .num m01, .num m02], [.num m10, .num m11, .num m12],
            [.num m20, .num m21, .num m22]] = .num 0 →
      calculateInverseMatrix (.mat [[JsNum.num m00, .num m01, .num m02],
          [.num m10, .num m11, .num m12], [.num m20, .num m21, .num m22]]) =
        ([], some (.mat (inverse3 [[JsNum.num m00, .num m01, .num m02],
          [.num m10, .num m11, .num m12], [.num m20, .num m21, .num m22]]))) ∧
      ∀ r ∈ inverse3 [[JsNum.num m00, .num m01, .num m02],
          [.num m10, .num m11, .num m12], [.num m20, .num m21, .num m22]],
        ∀ x ∈ r, JsNum.jfinite x = false) ∧
    (∀ m00 m01 m02 m03 m10 m11 m12 m13 m20 m21 m22 m23 m30 m31 m32 m33 : ℚ,
      det4 [[JsNum.num m00, .num m01, .num m02, .num m03],
            [.num m10, .num m11, .num m12, .num m13],
            [.num m20, .num m21, .num m22, .num m23],
            [.num m30, .num m31, .num m32, .num m33]] = .num 0 →
      calculateInverseMatrix (.mat [[JsNum.num m00, .num m01, .num m02, .num m03],
          [.num m10, .num m11, .num m12, .num m13],
          [.num m20, .num m21, .num m22, .num m23],
          [.num m30, .num m31, .num m32, .num m33]]) =
        ([], some (.mat (inverse4 [[JsNum.num m00, .num m01, .num m02, .num m03],
          [.num m10, .num m11, .num m12, .num m13],
          [.num m20, .num m21, .num m22, .num m23],
          [.num m30, .num m31, .num m32, .num m33]]))) ∧
      ∀ r ∈ inverse4 [[JsNum.num m00, .num m01, .num m02, .num m03],
          [.num m10, .num m11, .num m12, .num m13],
          [.num m20, .num m21, .num m22, .num m23],
          [.num m30, .num m31, .num m32, .num m33]],
        ∀ x ∈ r, JsNum.jfinite x = false) := by
  refine ⟨fun a b c d h => ⟨rfl, ?_⟩,
    fun m00 m01 m02 m10 m11 m12 m20 m21 m22 h => ⟨rfl, ?_⟩,
    fun m00 m01 m02 m03 m10 m11 m12 m13 m20 m21 m22 m23 m30 m31 m32 m33 h => ⟨rfl, ?_⟩⟩
  · simp only [inverse2, mat2, vec2, rowsOf, setE, idx, List.set,
      List.getD_cons_zero, List.getD_cons_succ, List.getD, List.getElem?_cons_zero,
      List.getElem?_cons_succ, Option.getD_some]
    rw [h]
    simp [JsNum.jfinite_num_div_zero, JsNum.neg_num, JsNum.num_mul_num, JsNum.num_sub_num]
  · simp only [inverse3, mat3, vec3, vec2, det2, rowsOf, setE, idx, List.set,
      List.getD_cons_zero, List.getD_cons_succ, List.getD, List.getElem?_cons_zero,
      List.getElem?_cons_succ, Option.getD_some]
    rw [h]
    simp [JsNum.jfinite_num_div_zero, JsNum.neg_num, JsNum.num_mul_num, JsNum.num_sub_num]
  · simp only [inverse4, mat4, vec4, vec3, det3, rowsOf, setE, idx, List.set,
      List.getD_cons_zero, List.getD_cons_succ, List.getD, List.getElem?_cons_zero,
      List.getElem?_cons_succ, Option.getD_some]
    rw [h]
    simp [JsNum.jfinite_num_div_zero, JsNum.neg_num, JsNum.num_mul_num, JsNum.num_sub_num,
      JsNum.num_add_num]

/-- Witness for C7 at concrete singular matrices of each dimension. -/
theorem C7_singular_inverse_unguarded_nonfinite_witness :
    (det2 [[JsNum.num 1, .num 2], [.num 2, .num 4]] = .num 0 ∧
      ∀ r ∈ inverse2 [[JsNum.num 1, .num 2], [.num 2, .num 4]],
        ∀ x ∈ r, JsNum.jfinite x = false) ∧
    (det3 [[JsNum.num 1, .num 2, .num 3], [.num 4, .num 5, .num 6],
           [.num 7, .num 8, .num 9]] = .num 0 ∧
      ∀ r ∈ inverse3 [[JsNum.num 1, .num 2, .num 3], [.num 4, .num 5, .num 6],
           [.num 7, .num 8, .num 9]],
        ∀ x ∈ r, JsNum.jfinite x = false) ∧
    (det4 [[JsNum.num 1, .num 2, .num 3, .num 4], [.num 5, .num 6, .num 7, .num 8],
           [.num 9, .num 10, .num 11, .num 12], [.num 13, .num 14, .num 15, .num 16]] =
        .num 0 ∧
      ∀ r ∈ inverse4 [[JsNum.num 1, .num 2, .num 3, .num 4],
           [.num 5, .num 6, .num 7, .num 8], [.num 9, .num 10, .num 11, .num 12],
           [.num 13, .num 14, .num 15, .num 16]],
        ∀ x ∈ r, JsNum.jfinite x = false) := by
  have h2 : det2 [[JsNum.num 1, .num 2], [.num 2, .num 4]] = .num 0 := by
    norm_num [det2, idx, JsNum.num_mul_num, JsNum.num_sub_num]
  have h3 : det3 [[JsNum.num 1, .num 2, .num 3], [.num 4, .num 5, .num 6],
      [.num 7, .num 8, .num 9]] = .num 0 := by
    norm_num [det3, idx, JsNum.num_mul_num, JsNum.num_sub_num, JsNum.num_add_num]
  have h4 : det4 [[JsNum.num 1, .num 2, .num 3, .num 4], [.num 5, .num 6, .num 7, .num 8],
      [.num 9, .num 10, .num 11, .num 12], [.num 13, .num 14, .num 15, .num 16]] =
      .num 0 := by
    norm_num [det4, det3, vec3, idx, JsNum.num_mul_num, JsNum.num_sub_num,
      JsNum.num_add_num]
  exact ⟨⟨h2, (C7_singular_inverse_unguarded_nonfinite.1 1 2 2 4 h2).2⟩,
    ⟨h3, (C7_singular_inverse_unguarded_nonfinite.2.1 1 2 3 4 5 6 7 8 9 h3).2⟩,
    ⟨h4, (C7_singular_inverse_unguarded_nonfinite.2.2
      1 2 3 4 5 6 7 8 9 10 11 12 13 14 15 16 h4).2⟩⟩

/-- C10: on the all-zero vector `normalizeVectors` reports nothing — the
computed length `0` is finite, so the non-finiteness guard passes — and
divides each component by zero, returning all-`NaN`; consequently
`rotateMatrix` with a zero axis silently (`ok`, no diagnostic, no throw)
returns a matrix whose rotation block is all `NaN`, for every model of the
trigonometric builtins and every angle. -/
theorem C10_zero_axis_silent_nan :
    normalizeVectors ([.num 0, .num 0, .num 0] : List JsNum) false =
      .ok [JsNum.nan, JsNum.nan, JsNum.nan] ∧
    ∀ (cosF sinF : JsNum → JsNum) (piV angle : JsNum),
      rotateMatrix cosF sinF piV angle [.num 0, .num 0, .num 0] =
        .ok (.mat [[JsNum.nan, JsNum.nan, JsNum.nan, .num 0],
                   [JsNum.nan, JsNum.nan, JsNum.nan, .num 0],
                   [JsNum.nan, JsNum.nan, JsNum.nan, .num 0],
                   [.num 0, .num 0, .num 0, .num 1]]) := by
  have hn : normalizeVectors ([.num 0, .num 0, .num 0] : List JsNum) false =
      .ok [JsNum.nan, JsNum.nan, JsNum.nan] := by
    simp [normalizeVectors, vectorLength, dotProduct, List.range_succ,
      sqrtOp_jsnum, isFiniteOp_jsnum, JsNum.zero_def, JsNum.num_add_num,
      JsNum.num_mul_num, JsNum.jsqrt, JsNum.ratSqrt_zero, JsNum.jfinite,
      num_zero_div_zero]
  refine ⟨hn, fun cosF sinF piV angle => ?_⟩
  simp [rotateMatrix, hn, mat4, vec4, JsNum.nan_mul, JsNum.mul_nan,
    JsNum.nan_add, JsNum.add_nan, JsNum.nan_sub, JsNum.sub_nan,
    JsNum.zero_def, JsNum.one_def]

end ClaimTheoremsSpecial

/-!
Shape machinery for the tag-and-square-rows invariant (claim C9): a Boolean
check that a value is a tagged d×d matrix, lifted over the two result
channels, with preservation lemmas for every matrix-producing operation.
-/

section Shape

variable {α : Type}

def taggedSquareB (d : Nat) : LinVal α → Bool
  | .mat m => m.length == d && m.all fun r => r.length == d
  | .vec _ => false

def okSquare (d : Nat) : JsOutcome (LinVal α) → Bool
  | .ok v => taggedSquareB d v
  | _ => true

def someSquare (d : Nat) : List String × Option (LinVal α) → Bool
  | (_, some v) => taggedSquareB d v
  | (_, none) => true

theorem taggedSquareB_iff {d : Nat} {m : Mat α} :
    taggedSquareB d (.mat m) = true ↔ m.length = d ∧ ∀ r ∈ m, r.length = d := by
  simp [taggedSquareB, List.all_eq_true]

theorem getD_row_length {m : Mat α} {d : Nat} (hall : ∀ r ∈ m, r.length = d)
    {i : Nat} (hi : i < m.length) : (m.getD i []).length = d := by
  rw [List.getD_eq_getElem m [] hi]
  exact hall _ (List.getElem_mem hi)

end Shape

theorem isFiniteOp_rat (x : ℚ) : JsMathOps.isFiniteOp x = true := rfl

theorem addShape {d : Nat} {mu mv : Mat ℚ}
    (hu : taggedSquareB d (.mat mu) = true) (hv : taggedSquareB d (.mat mv) = true) :
    okSquare d (linearAddition (.mat mu) (.mat mv)) = true := by
  rw [taggedSquareB_iff] at hu hv
  obtain ⟨hu1, hu2⟩ := hu
  obtain ⟨hv1, hv2⟩ := hv
  have hlen : mu.length = mv.length := by rw [hu1, hv1]
  have hrows : ∀ i < mu.length, (mu.getD i []).length = (mv.getD i []).length := by
    intro i hi
    rw [getD_row_length hu2 hi, getD_row_length hv2 (by rwa [← hlen])]
  simp only [linearAddition]
  rw [if_neg (not_ne_iff.mpr hlen), if_neg (by simpa using hrows)]
  rw [okSquare, taggedSquareB_iff]
  refine ⟨by simpa using hu1, ?_⟩
  intro r hr
  simp only [List.mem_map, List.mem_range] at hr
  obtain ⟨i, hi, rfl⟩ := hr
  simpa using getD_row_length hu2 hi

theorem subShape {d : Nat} {mu mv : Mat ℚ}
    (hu : taggedSquareB d (.mat mu) = true) (hv : taggedSquareB d (.mat mv) = true) :
    okSquare d (linearSubtract (.mat mu) (.mat mv)) = true := by
  rw [taggedSquareB_iff] at hu hv
  obtain ⟨hu1, hu2⟩ := hu
  obtain ⟨hv1, hv2⟩ := hv
  have hlen : mu.length = mv.length := by rw [hu1, hv1]
  have hrows : ∀ i < mu.length, (mu.getD i []).length = (mv.getD i []).length := by
    intro i hi
    rw [getD_row_length hu2 hi, getD_row_length hv2 (by rwa [← hlen])]
  simp only [linearSubtract]
  rw [if_neg (not_ne_iff.mpr hlen), if_neg (by simpa using hrows)]
  rw [okSquare, taggedSquareB_iff]
  refine ⟨by simpa using hu1, ?_⟩
  intro r hr
  simp only [List.mem_map, List.mem_range] at hr
  obtain ⟨i, hi, rfl⟩ := hr
  simpa using getD_row_length hu2 hi

theorem mulShape {d : Nat} {mu mv : Mat ℚ}
    (hu : taggedSquareB d (.mat mu) = true) (hv : taggedSquareB d (.mat mv) = true) :
    okSquare d (linearMultiply (.mat mu) (.mat mv)) = true := by
  rw [taggedSquareB_iff] at hu hv
  obtain ⟨hu1, hu2⟩ := hu
  obtain ⟨hv1, hv2⟩ := hv
  have hlen : mu.length = mv.length := by rw [hu1, hv1]
  have hrows : ∀ i < mu.length, (mu.getD i []).length = (mv.getD i []).length := by
    intro i hi
    rw [getD_row_length hu2 hi, getD_row_length hv2 (by rwa [← hlen])]
  simp only [linearMultiply]
  rw [if_neg (not_ne_iff.mpr hlen), if_neg (by simpa using hrows)]
  rw [okSquare, taggedSquareB_iff]
  refine ⟨by simpa using hu1, ?_⟩
  intro r hr
  simp only [List.mem_map, List.mem_range] at hr
  obtain ⟨i, hi, rfl⟩ := hr
  simpa using hv1

theorem transposeShape {d : Nat} {m : Mat ℚ}
    (hm : taggedSquareB d (.mat m) = true) :
    okSquare d (transposeMatrix (.mat m)) = true := by
  rw [taggedSquareB_iff] at hm
  obtain ⟨h1, h2⟩ := hm
  simp only [transposeMatrix, okSquare, transposeRows]
  rw [taggedSquareB_iff]
  refine ⟨by simpa using h1, ?_⟩
  intro r hr
  simp only [List.mem_map, List.mem_range] at hr
  obtain ⟨i, hi, rfl⟩ := hr
  simpa using getD_row_length h2 hi

theorem vec2_len (l : List ℚ) : (vec2 l).length = 2 := by
  rcases l with _ | ⟨a, _ | ⟨b, t⟩⟩ <;> rfl

theorem vec3_len (l : List ℚ) : (vec3 l).length = 3 := by
  rcases l with _ | ⟨a, _ | ⟨b, _ | ⟨c, t⟩⟩⟩ <;> rfl

theorem vec4_len (l : List ℚ) : (vec4 l).length = 4 := by
  rcases l with _ | ⟨a, _ | ⟨b, _ | ⟨c, _ | ⟨d, t⟩⟩⟩⟩ <;> rfl

theorem mat2Shape (v : List ℚ) : taggedSquareB 2 (mat2 v) = true := by
  rcases v with _ | ⟨x, _ | ⟨y, t⟩⟩
  · rfl
  · rfl
  · simp [mat2, taggedSquareB, vec2_len]

theorem mat3Shape (v : List ℚ) : taggedSquareB 3 (mat3 v) = true := by
  rcases v with _ | ⟨x, _ | ⟨y, t⟩⟩
  · rfl
  · rfl
  · simp [mat3, taggedSquareB, vec3_len]

theorem mat4Shape (v : List ℚ) : taggedSquareB 4 (mat4 v) = true := by
  rcases v with _ | ⟨x, _ | ⟨y, t⟩⟩
  · rfl
  · rfl
  · simp [mat4, taggedSquareB, vec4_len]

theorem translateShape (x y z : ℚ) : taggedSquareB 4 (translateMatrix x y z) = true := rfl

theorem scalingShape (x y z : ℚ) : taggedSquareB 4 (scalingMatrix x y z) = true := rfl

theorem rotXShape (cosF sinF : ℚ → ℚ) (piV θ : ℚ) :
    taggedSquareB 4 (rotateX cosF sinF piV θ) = true := rfl

theorem rotYShape (cosF sinF : ℚ → ℚ) (piV θ : ℚ) :
    taggedSquareB 4 (rotateY cosF sinF piV θ) = true := rfl

theorem rotZShape (cosF sinF : ℚ → ℚ) (piV θ : ℚ) :
    taggedSquareB 4 (rotateZ cosF sinF piV θ) = true := rfl

theorem orthoShape (l r b t n f : ℚ) :
    okSquare 4 (buildOrthographicMatrix l r b t n f) = true := by
  unfold buildOrthographicMatrix
  split_ifs <;> rfl

theorem perspShape (tanF : ℚ → ℚ) (piV fovY aspect near far : ℚ) :
    okSquare 4 (buildPerspectiveMatrix tanF piV fovY aspect near far) = true := rfl

theorem rotMShape (cosF sinF : ℚ → ℚ) (piV angle : ℚ) (axis : List ℚ) :
    okSquare 4 (rotateMatrix cosF sinF piV angle axis) = true := by
  rcases h : normalizeVectors axis false with v | msg | msg <;>
    simp [rotateMatrix, h, okSquare, mat4, vec4, taggedSquareB]


theorem setE_shape {d : Nat} {m : Mat ℚ} {i j : Nat} {x : ℚ}
    (h : taggedSquareB d (.mat m) = true) (hi : i < d) :
    taggedSquareB d (.mat (setE m i j x)) = true := by
  rw [taggedSquareB_iff] at h ⊢
  obtain ⟨h1, h2⟩ := h
  refine ⟨by simpa [setE] using h1, ?_⟩
  intro r hr
  simp only [setE] at hr
  rcases List.mem_or_eq_of_mem_set hr with hmem | rfl
  · exact h2 _ hmem
  · rw [List.length_set]
    exact getD_row_length h2 (by rw [h1]; exact hi)

theorem inverse2_shape (m : Mat ℚ) : taggedSquareB 2 (.mat (inverse2 m)) = true := by
  unfold inverse2
  repeat apply setE_shape _ (by norm_num)
  rfl

theorem inverse3_shape (m : Mat ℚ) : taggedSquareB 3 (.mat (inverse3 m)) = true := by
  unfold inverse3
  repeat apply setE_shape _ (by norm_num)
  rfl

theorem inverse4_shape (m : Mat ℚ) : taggedSquareB 4 (.mat (inverse4 m)) = true := by
  unfold inverse4
  repeat apply setE_shape _ (by norm_num)
  rfl

theorem calcInvShape2 (a b c d : ℚ) :
    someSquare 2 (calculateInverseMatrix (.mat [[a, b], [c, d]])) = true := by
  simpa [calculateInverseMatrix, someSquare] using inverse2_shape [[a, b], [c, d]]

theorem calcInvShape3 (m00 m01 m02 m10 m11 m12 m20 m21 m22 : ℚ) :
    someSquare 3 (calculateInverseMatrix (.mat [[m00,m01,m02],[m10,m11,m12],
      [m20,m21,m22]])) = true := by
  simpa [calculateInverseMatrix, someSquare] using
    inverse3_shape [[m00,m01,m02],[m10,m11,m12],[m20,m21,m22]]

theorem calcInvShape4 (m00 m01 m02 m03 m10 m11 m12 m13 m20 m21 m22 m23 m30 m31 m32 m33 : ℚ) :
    someSquare 4 (calculateInverseMatrix (.mat [[m00,m01,m02,m03],[m10,m11,m12,m13],
      [m20,m21,m22,m23],[m30,m31,m32,m33]])) = true := by
  simpa [calculateInverseMatrix, someSquare] using
    inverse4_shape [[m00,m01,m02,m03],[m10,m11,m12,m13],[m20,m21,m22,m23],[m30,m31,m32,m33]]

theorem normMatShape (m00 m01 m02 m03 m10 m11 m12 m13 m20 m21 m22 m23 m30 m31 m32 m33 : ℚ) :
    someSquare 4 (normalizeMatrix (.mat [[m00,m01,m02,m03],[m10,m11,m12,m13],
      [m20,m21,m22,m23],[m30,m31,m32,m33]]) false) = true ∧
    someSquare 3 (normalizeMatrix (.mat [[m00,m01,m02,m03],[m10,m11,m12,m13],
      [m20,m21,m22,m23],[m30,m31,m32,m33]]) true) = true := by
  have hlen : (transposeRows ([[m00,m01,m02,m03],[m10,m11,m12,m13],
      [m20,m21,m22,m23],[m30,m31,m32,m33]] : Mat ℚ)).length = 4 := by
    simp [transposeRows]
  constructor
  · simp only [normalizeMatrix, transposeMatrix, calculateInverseMatrix, hlen]
    simpa [someSquare] using inverse4_shape (transposeRows
      [[m00,m01,m02,m03],[m10,m11,m12,m13],[m20,m21,m22,m23],[m30,m31,m32,m33]])
  · simp only [normalizeMatrix, transposeMatrix, calculateInverseMatrix, hlen]
    simp [someSquare, taggedSquareB, List.range_succ]

theorem viewShape (eye target up : List ℚ) :
    okSquare 4 (viewMatrixAt eye target up) = true := by
  unfold viewMatrixAt
  split_ifs with h1 h2 h3 h4
  · rfl
  · rfl
  · rfl
  · rfl
  · have he : eye.length = 3 := not_ne_iff.mp h1
    have ht : target.length = 3 := not_ne_iff.mp h2
    have hu : up.length = 3 := not_ne_iff.mp h3
    have hsub : linearSubtract (.vec target) (.vec eye) =
        .ok (.vec ((List.range target.length).map fun i =>
          target.getD i default - eye.getD i default)) := by
      simp only [linearSubtract]
      rw [if_neg (not_ne_iff.mpr (by rw [he, ht]))]
    rw [hsub, ht]
    simp [normalizeVectors, isFiniteOp_rat, crossProduct, hu, negateElements,
      List.range_succ, mat4, vec4, okSquare, taggedSquareB]


set_option maxHeartbeats 1000000 in
/-- C9: every matrix-producing operation — the constructors on arbitrary
arguments, componentwise addition and subtraction, matrix multiplication,
transpose, the translation/rotation/scaling/view/projection builders, the
inverses and the normal-matrix routine — returns (on its successful matrix
result) a value carrying the matrix tag whose rows all have length equal to
the matrix dimension.  Trigonometric builtins appear as parameters and the
statement holds for every model of them. -/
theorem C9_matrix_producers_tagged_square :
    (∀ v : List ℚ, taggedSquareB 2 (mat2 v) = true ∧ taggedSquareB 3 (mat3 v) = true ∧
      taggedSquareB 4 (mat4 v) = true) ∧
    (∀ (d : Nat) (mu mv : Mat ℚ), taggedSquareB d (.mat mu) = true →
      taggedSquareB d (.mat mv) = true →
      okSquare d (linearAddition (.mat mu) (.mat mv)) = true ∧
      okSquare d (linearSubtract (.mat mu) (.mat mv)) = true ∧
      okSquare d (linearMultiply (.mat mu) (.mat mv)) = true) ∧
    (∀ (d : Nat) (m : Mat ℚ), taggedSquareB d (.mat m) = true →
      okSquare d (transposeMatrix (.mat m)) = true) ∧
    (∀ x y z : ℚ, taggedSquareB 4 (translateMatrix x y z) = true ∧
      taggedSquareB 4 (scalingMatrix x y z) = true) ∧
    (∀ (cosF sinF : ℚ → ℚ) (piV θ : ℚ),
      taggedSquareB 4 (rotateX cosF sinF piV θ) = true ∧
      taggedSquareB 4 (rotateY cosF sinF piV θ) = true ∧
      taggedSquareB 4 (rotateZ cosF sinF piV θ) = true) ∧
    (∀ (cosF sinF : ℚ → ℚ) (piV angle : ℚ) (axis : List ℚ),
      okSquare 4 (rotateMatrix cosF sinF piV angle axis) = true) ∧
    (∀ eye target up : List ℚ, okSquare 4 (viewMatrixAt eye target up) = true) ∧
    (∀ l r b t n f : ℚ, okSquare 4 (buildOrthographicMatrix l r b t n f) = true) ∧
    (∀ (tanF : ℚ → ℚ) (piV fovY aspect near far : ℚ),
      okSquare 4 (buildPerspectiveMatrix tanF piV fovY aspect near far) = true) ∧
    (∀ a b c d : ℚ,
      someSquare 2 (calculateInverseMatrix (.mat [[a, b], [c, d]])) = true) ∧
    (∀ m00 m01 m02 m10 m11 m12 m20 m21 m22 : ℚ,
      someSquare 3 (calculateInverseMatrix (.mat [[m00, m01, m02], [m10, m11, m12],
        [m20, m21, m22]])) = true) ∧
    (∀ m00 m01 m02 m03 m10 m11 m12 m13 m20 m21 m22 m23 m30 m31 m32 m33 : ℚ,
      someSquare 4 (calculateInverseMatrix (.mat [[m00, m01, m02, m03],
        [m10, m11, m12, m13], [m20, m21, m22, m23], [m30, m31, m32, m33]])) = true) ∧
    (∀ m00 m01 m02 m03 m10 m11 m12 m13 m20 m21 m22 m23 m30 m31 m32 m33 : ℚ,
      someSquare 4 (normalizeMatrix (.mat [[m00, m01, m02, m03], [m10, m11, m12, m13],
        [m20, m21, m22, m23], [m30, m31, m32, m33]]) false) = true ∧
      someSquare 3 (normalizeMatrix (.mat [[m00, m01, m02, m03], [m10, m11, m12, m13],
        [m20, m21, m22, m23], [m30, m31, m32, m33]]) true) = true) :=
  ⟨fun v => ⟨mat2Shape v, mat3Shape v, mat4Shape v⟩,
   fun _ _ _ hu hv => ⟨addShape hu hv, subShape hu hv, mulShape hu hv⟩,
   fun _ _ hm => transposeShape hm,
   fun x y z => ⟨translateShape x y z, scalingShape x y z⟩,
   fun cosF sinF piV θ => ⟨rotXShape cosF sinF piV θ, rotYShape cosF sinF piV θ,
     rotZShape cosF sinF piV θ⟩,
   fun cosF sinF piV angle axis => rotMShape cosF sinF piV angle axis,
   fun eye target up => viewShape eye target up,
   fun l r b t n f => orthoShape l r b t n f,
   fun tanF piV fovY aspect near far => perspShape tanF piV fovY aspect near far,
   fun a b c d => calcInvShape2 a b c d,
   fun m00 m01 m02 m10 m11 m12 m20 m21 m22 =>
     calcInvShape3 m00 m01 m02 m10 m11 m12 m20 m21 m22,
   fun m00 m01 m02 m03 m10 m11 m12 m13 m20 m21 m22 m23 m30 m31 m32 m33 =>
     calcInvShape4 m00 m01 m02 m03 m10 m11 m12 m13 m20 m21 m22 m23 m30 m31 m32 m33,
   fun m00 m01 m02 m03 m10 m11 m12 m13 m20 m21 m22 m23 m30 m31 m32 m33 =>
     normMatShape m00 m01 m02 m03 m10 m11 m12 m13 m20 m21 m22 m23 m30 m31 m32 m33⟩

/-- Witness for C9, exercising the hypothesis-bearing conjuncts (addition,
subtraction, multiplication, transpose) on concrete 2×2 tagged matrices. -/
theorem C9_matrix_producers_tagged_square_witness :
    (taggedSquareB 2 (LinVal.mat ([[1, 2], [3, 4]] : Mat ℚ)) = true ∧
     taggedSquareB 2 (LinVal.mat ([[5, 6], [7, 8]] : Mat ℚ)) = true) ∧
    okSquare 2 (linearAddition (.mat ([[1, 2], [3, 4]] : Mat ℚ)) (.mat [[5, 6], [7, 8]])) = true ∧
    okSquare 2 (linearSubtract (.mat ([[1, 2], [3, 4]] : Mat ℚ)) (.mat [[5, 6], [7, 8]])) = true ∧
    okSquare 2 (linearMultiply (.mat ([[1, 2], [3, 4]] : Mat ℚ)) (.mat [[5, 6], [7, 8]])) = true ∧
    okSquare 2 (transposeMatrix (.mat ([[1, 2], [3, 4]] : Mat ℚ))) = true :=
  ⟨⟨by decide, by decide⟩,
   (C9_matrix_producers_tagged_square.2.1 2 [[1, 2], [3, 4]] [[5, 6], [7, 8]]
     (by decide) (by decide)).1,
   (C9_matrix_producers_tagged_square.2.1 2 [[1, 2], [3, 4]] [[5, 6], [7, 8]]
     (by decide) (by decide)).2.1,
   (C9_matrix_producers_tagged_square.2.1 2 [[1, 2], [3, 4]] [[5, 6], [7, 8]]
     (by decide) (by decide)).2.2,
   C9_matrix_producers_tagged_square.2.2.1 2 [[1, 2], [3, 4]] (by decide)⟩


end WebGLUtil
